import Mathlib

/-!
Verification of the m6502 CPU model (alu8.py, core.py, consts.py).

The nMigen design is embedded shallowly:

* the combinational ALU (`ALU8.elaborate`) becomes the pure function
  `alu8 : input1 → input2 → func → flags_in → output × flags_out`;
* the synchronous instruction engine (`Core.elaborate`) becomes a step
  function on an explicit machine state.  One call of `stepo` corresponds
  to one `ph1` clock edge: the combinational logic is evaluated on the
  current registered state together with the current data-in byte, and
  the `m.d.ph1` assignments are committed.  Later assignments override
  earlier ones exactly as in nMigen, so `end_instr_flag_handler` (added
  last in `Core.elaborate`) wins for `pc`, `Addr`, `RW` and `cycle`.

All machine words are `Nat` with explicit truncation (`% 256`,
`% 65536`), mirroring the widths of the corresponding `Signal`s.
-/

namespace M6502

/-- Bit `i` of `v` (0 or 1), i.e. the nMigen slice `v[i]`. -/
def bit (v i : Nat) : Nat := v / 2 ^ i % 2

/-- Write bit `i` of `v` to `b` (the nMigen slice assignment
`sig[i].eq(b)`; assigning to a 1-bit slice truncates the value). -/
def setBit (v i b : Nat) : Nat :=
  v % 2 ^ i + b % 2 * 2 ^ i + v / 2 ^ (i + 1) * 2 ^ (i + 1)

/-- Concatenate a low and a high byte (`Cat(lo, hi)` of two 8-bit values). -/
def cat8 (lo hi : Nat) : Nat := lo % 256 + hi % 256 * 256

/-- Assign the low byte of a 16-bit register (slice `r[:8].eq(lo)`). -/
def setLo8 (v lo : Nat) : Nat := v / 256 * 256 + lo % 256

/-- Assign the high byte of a 16-bit register (slice `r[8:].eq(hi)`). -/
def setHi8 (v hi : Nat) : Nat := v % 256 + hi % 256 * 256

/-- The ALU function selector, from `class ALU8Func(IntEnum)` in alu8.py. -/
inductive ALU8Func where
  | NONE | LD | ADC | SBC | SUB | ORA | AND | EOR
  | CLC | SEC | CLD | SED | CLI | SEI | CLV
  | INC | DEC | ASL | LSR | ROL | ROR | TR | LDSR
deriving DecidableEq, Repr

/-- Flag bit positions from consts.py (`NV-BDIZC`): N=7, V=6, bit 5
unused, B=4, D=3, I=2, Z=1, C=0. -/
def FlagsN : Nat := 7
def FlagsV : Nat := 6
def FlagsB : Nat := 4
def FlagsD : Nat := 3
def FlagsI : Nat := 2
def FlagsZ : Nat := 1
def FlagsC : Nat := 0

/-- The combinational ALU of alu8.py (`ALU8.elaborate`): given the two
8-bit inputs, the function selector and the current `sr_flags`, return
`(output, _sr_flags)`.  The default for `_sr_flags` is `sr_flags`
(line `self._sr_flags.eq(self.sr_flags)`), the default output is 0, and
each `Case` overrides exactly the bits the source assigns. -/
def alu8 (input1 input2 : Nat) (func : ALU8Func) (flagsIn : Nat) : Nat × Nat :=
  let i1 := input1 % 256
  let i2 := input2 % 256
  let f := flagsIn % 256
  match func with
  | .NONE => (0, f)
  | .LD =>
      let out := i2
      (out, setBit (setBit f 1 (if out = 0 then 1 else 0)) 7 (bit out 7))
  | .TR => (i2, f)
  | .LDSR => (0, i2)
  | .ADC =>
      let carryIn := bit f FlagsC
      let decimal := bit f FlagsD
      let resLo := i1 % 16 + i2 % 16 + carryIn
      let decHc := if decimal = 1 ∧ 5 ≤ resLo / 2 % 8 then 1 else 0
      let halfCarry := if resLo / 16 % 2 = 1 ∨ decHc = 1 then 1 else 0
      let resHi := i1 / 16 + i2 / 16 + halfCarry
      let decCo := if decimal = 1 ∧ 5 ≤ resHi / 2 % 8 then 1 else 0
      let result := resLo % 16 + resHi % 16 * 16
      let carryOut := if resHi / 16 % 2 = 1 ∨ decCo = 1 then 1 else 0
      let overflow := (bit i1 7 + bit i2 7 + carryOut + bit result 7) % 2
      let f1 := setBit (setBit (setBit (setBit f 7 (bit result 7))
                  1 (if result = 0 then 1 else 0)) 6 overflow) 0 carryOut
      let adjLo := if decimal = 1 ∧ halfCarry = 1 then 6 else 0
      let adjHi := if decimal = 1 ∧ carryOut = 1 then 6 else 0
      ((result % 16 + adjLo) % 16 + (result / 16 + adjHi) % 16 * 16, f1)
  | .SBC =>
      let carryIn := bit f FlagsC
      let decimal := bit f FlagsD
      let resLo := i1 % 16 + (15 - i2 % 16) + carryIn
      let decHc := if decimal = 1 ∧ 5 ≤ resLo / 2 % 8 then 1 else 0
      let halfCarry := if resLo / 16 % 2 = 1 ∨ decHc = 1 then 1 else 0
      let resHi := i1 / 16 + (15 - i2 / 16) + halfCarry
      let decCo := if decimal = 1 ∧ 5 ≤ resHi / 2 % 8 then 1 else 0
      let result := resLo % 16 + resHi % 16 * 16
      let carryOut := if resHi / 16 % 2 = 1 ∨ decCo = 1 then 1 else 0
      let overflow := (bit i1 7 + (1 - bit i2 7) + carryOut + bit result 7) % 2
      let f1 := setBit (setBit (setBit (setBit f 7 (bit result 7))
                  1 (if result = 0 then 1 else 0)) 6 overflow) 0 carryOut
      let adjLo := if decimal = 1 ∧ halfCarry = 0 then 10 else 0
      let adjHi := if decimal = 1 ∧ carryOut = 0 then 10 else 0
      ((result % 16 + adjLo) % 16 + (result / 16 + adjHi) % 16 * 16, f1)
  | .SUB =>
      let sum06 := i1 % 128 + (127 - i2 % 128) + 1
      let carry7 := sum06 / 128 % 2
      let sum7 := bit i1 7 + (1 - bit i2 7) + carry7
      let carry8 := sum7 / 2 % 2
      let out := sum06 % 128 + sum7 % 2 * 128
      (out, setBit (setBit (setBit f 7 (bit out 7))
              1 (if out = 0 then 1 else 0)) 0 (1 - carry8))
  | .ORA =>
      let out := i1 ||| i2
      (out, setBit (setBit f 7 (bit out 7)) 1 (if out = 0 then 1 else 0))
  | .AND =>
      let out := i1 &&& i2
      (out, setBit (setBit f 7 (bit out 7)) 1 (if out = 0 then 1 else 0))
  | .EOR =>
      let out := i1 ^^^ i2
      (out, setBit (setBit f 7 (bit out 7)) 1 (if out = 0 then 1 else 0))
  | .CLC => (0, setBit f FlagsC 0)
  | .SEC => (0, setBit f FlagsC 1)
  | .CLD => (0, setBit f FlagsD 0)
  | .SED => (0, setBit f FlagsD 1)
  | .CLI => (0, setBit f FlagsI 0)
  | .SEI => (0, setBit f FlagsI 1)
  | .CLV => (0, setBit f FlagsV 0)
  | .INC =>
      let out := (i1 + 1) % 256
      (out, setBit (setBit f 7 (bit out 7)) 1 (if out = 0 then 1 else 0))
  | .DEC =>
      let out := (i1 + 255) % 256
      (out, setBit (setBit f 7 (bit out 7)) 1 (if out = 0 then 1 else 0))
  | .ASL =>
      let out := i1 % 128 * 2
      (out, setBit (setBit (setBit f 7 (bit out 7))
              1 (if out = 0 then 1 else 0)) 0 (bit i1 7))
  | .LSR =>
      let out := i1 / 2
      (out, setBit (setBit (setBit f 7 0)
              1 (if out = 0 then 1 else 0)) 0 (bit i1 0))
  | .ROL =>
      let carryIn := bit f FlagsC
      let out := carryIn + i1 % 128 * 2
      (out, setBit (setBit (setBit f 7 (bit out 7))
              1 (if out = 0 then 1 else 0)) 0 (bit i1 7))
  | .ROR =>
      let carryIn := bit f FlagsC
      let out := i1 / 2 + carryIn * 128
      (out, setBit (setBit (setBit f 7 carryIn)
              1 (if out = 0 then 1 else 0)) 0 (bit i1 0))

namespace Core

/-- The registered state of `Core` (core.py): architectural registers,
the hidden scratch registers `tmp8`/`tmp16`, the latched opcode, the
ALU's `sr_flags` register, the bus output registers `Addr`/`Dout`/`RW`,
the 4-bit instruction cycle counter and the 2-bit reset sequencer. -/
structure State where
  a : Nat
  x : Nat
  y : Nat
  sp : Nat
  pc : Nat
  tmp8 : Nat
  tmp16 : Nat
  instr : Nat
  flags : Nat
  addr : Nat
  dout : Nat
  rw : Nat
  cycle : Nat
  resetState : Nat
deriving DecidableEq, Repr

/-- Result of one `ph1` clock edge: the committed next state, plus
whether the combinational `end_instr_flag` was asserted on that edge. -/
structure StepOut where
  next : State
  endI : Bool
deriving DecidableEq, Repr

/-- Default synchronous update: every register holds its value and the
4-bit cycle counter increments (`m.d.ph1 += cycle.eq(cycle + 1)`). -/
def bump (s : State) : State := { s with cycle := (s.cycle + 1) % 16 }

/-- The `end_instr_flag_handler`: load `pc` and `Addr` with the next
fetch address, force read mode, reset the cycle counter.  It is added
last in `Core.elaborate`, so it overrides those four signals. -/
def endInstr (s : State) (a : Nat) : State :=
  { s with pc := a % 65536, addr := a % 65536, rw := 1, cycle := 0 }

/-- Registers selectable as ALU operand sources / destinations. -/
inductive R8 where
  | A | X | Y | SP
deriving DecidableEq, Repr

def getR (s : State) : R8 → Nat
  | .A => s.a
  | .X => s.x
  | .Y => s.y
  | .SP => s.sp

def setR (s : State) (r : R8) (v : Nat) : State :=
  match r with
  | .A => { s with a := v }
  | .X => { s with x := v }
  | .Y => { s with y := v }
  | .SP => { s with sp := v }

/-- Both `Core.NOP` and the `Default` (illegal-opcode) case:
`end_instr(self.pc)` on every execute cycle. -/
def NOP (s : State) : StepOut := ⟨endInstr (bump s) s.pc, true⟩

def BRK (s : State) (din : Nat) : StepOut :=
  if s.cycle = 1 then
    ⟨{ bump s with pc := (s.pc + 1) % 65536, addr := cat8 s.sp 1,
                   dout := (s.pc + 1) / 256 % 256, rw := 0 }, false⟩
  else if s.cycle = 2 then
    ⟨{ bump s with addr := cat8 (s.sp + 255) 1, dout := s.pc % 256, rw := 0 }, false⟩
  else if s.cycle = 3 then
    ⟨{ bump s with sp := (s.sp + 253) % 256, addr := cat8 (s.sp + 254) 1,
                   dout := (s.flags ||| 0x30) % 256, rw := 0 }, false⟩
  else if s.cycle = 4 then
    ⟨{ bump s with addr := 0xFFFE, rw := 1 }, false⟩
  else if s.cycle = 5 then
    ⟨{ bump s with pc := setLo8 s.pc din, addr := 0xFFFF, rw := 1 }, false⟩
  else if s.cycle = 6 then
    ⟨endInstr (bump s) (cat8 (s.pc % 256) din), true⟩
  else ⟨bump s, false⟩

def RTI (s : State) (din : Nat) : StepOut :=
  if s.cycle = 1 then
    ⟨{ bump s with addr := cat8 s.sp 1, rw := 1, pc := (s.pc + 1) % 65536 }, false⟩
  else if s.cycle = 2 then
    ⟨{ bump s with addr := cat8 (s.sp + 1) 1, rw := 1 }, false⟩
  else if s.cycle = 3 then
    ⟨{ bump s with flags := (alu8 0 din .LDSR s.flags).2,
                   addr := cat8 (s.sp + 2) 1, rw := 1 }, false⟩
  else if s.cycle = 4 then
    ⟨{ bump s with pc := setLo8 s.pc din, sp := (s.sp + 3) % 256,
                   addr := cat8 (s.sp + 3) 1, rw := 1 }, false⟩
  else if s.cycle = 5 then
    ⟨endInstr (bump s) (cat8 (s.pc % 256) din), true⟩
  else ⟨bump s, false⟩

def JSR (s : State) (din : Nat) : StepOut :=
  if s.cycle = 1 then
    ⟨{ bump s with pc := (s.pc + 1) % 65536, tmp16 := setLo8 s.tmp16 din,
                   addr := (s.pc + 1) % 65536, rw := 1 }, false⟩
  else if s.cycle = 2 then
    ⟨{ bump s with tmp16 := setHi8 s.tmp16 din, addr := cat8 s.sp 1, rw := 1 }, false⟩
  else if s.cycle = 3 then
    ⟨{ bump s with addr := cat8 s.sp 1, dout := s.pc / 256 % 256, rw := 0,
                   sp := (s.sp + 255) % 256 }, false⟩
  else if s.cycle = 4 then
    ⟨{ bump s with addr := cat8 s.sp 1, dout := s.pc % 256, rw := 0,
                   sp := (s.sp + 255) % 256, pc := s.tmp16 }, false⟩
  else if s.cycle = 5 then
    ⟨endInstr (bump s) s.pc, true⟩
  else ⟨bump s, false⟩

def RTS (s : State) (din : Nat) : StepOut :=
  if s.cycle = 1 then
    ⟨{ bump s with addr := cat8 s.sp 1, rw := 1, pc := (s.pc + 1) % 65536 }, false⟩
  else if s.cycle = 2 then
    ⟨{ bump s with addr := cat8 (s.sp + 1) 1, rw := 1 }, false⟩
  else if s.cycle = 3 then
    ⟨{ bump s with pc := setLo8 s.pc din, sp := (s.sp + 2) % 256,
                   addr := cat8 (s.sp + 2) 1, rw := 1 }, false⟩
  else if s.cycle = 4 then
    ⟨{ bump s with pc := setHi8 s.pc din }, false⟩
  else if s.cycle = 5 then
    ⟨endInstr (bump s) s.pc, true⟩
  else ⟨bump s, false⟩

/-- `Core.PUSH`: `r` is the value of the pushed register (A for PHA,
`sr_flags` for PHP), written to the stack exactly as held. -/
def PUSH (s : State) (r : Nat) : StepOut :=
  if s.cycle = 1 then
    ⟨{ bump s with addr := cat8 s.sp 1, sp := (s.sp + 255) % 256, rw := 0,
                   dout := r }, false⟩
  else if s.cycle = 2 then
    ⟨endInstr (bump s) s.pc, true⟩
  else ⟨bump s, false⟩

/-- `Core.PULL`: `toA` is whether a destination register (A, for PLA)
was supplied. -/
def PULL (s : State) (din : Nat) (fn : ALU8Func) (toA : Bool) : StepOut :=
  if s.cycle = 1 then ⟨bump s, false⟩
  else if s.cycle = 2 then
    ⟨{ bump s with addr := cat8 (s.sp + 1) 1, rw := 1, sp := (s.sp + 1) % 256 }, false⟩
  else if s.cycle = 3 then
    let r := alu8 0 din fn s.flags
    ⟨endInstr { bump s with flags := r.2, a := if toA then r.1 else s.a } s.pc, true⟩
  else ⟨bump s, false⟩

def TR (s : State) (fn : ALU8Func) (inp out : R8) : StepOut :=
  if s.cycle = 1 then
    let r := alu8 (getR s out) (getR s inp) fn s.flags
    ⟨endInstr (setR { bump s with flags := r.2 } out r.1) s.pc, true⟩
  else ⟨bump s, false⟩

def INC_DEC_IND (s : State) (fn : ALU8Func) (reg : R8) : StepOut :=
  if s.cycle = 1 then
    let r := alu8 (getR s reg) 0 fn s.flags
    ⟨endInstr (setR { bump s with flags := r.2 } reg r.1) s.pc, true⟩
  else ⟨bump s, false⟩

def ST (s : State) (din : Nat) : StepOut :=
  let modeB := s.instr / 4 % 8
  let modeC := s.instr % 4
  let index := if modeC = 1 then s.a else if modeC = 2 then s.x
               else if modeC = 0 then s.y else s.a
  let zpInd := if modeC = 1 then s.x else if modeC = 2 then s.y
               else if modeC = 0 then s.x else s.x
  if modeB = 1 then
    if s.cycle = 1 then
      ⟨{ bump s with tmp16 := din, pc := (s.pc + 1) % 65536, addr := din,
                     dout := index, rw := 0 }, false⟩
    else if s.cycle = 2 then ⟨endInstr (bump s) s.pc, true⟩
    else ⟨bump s, false⟩
  else if modeB = 2 then
    if s.cycle = 1 then
      ⟨{ bump s with tmp8 := din, pc := (s.pc + 1) % 65536, addr := din, rw := 1 }, false⟩
    else if s.cycle = 2 then
      ⟨{ bump s with addr := (s.tmp8 + zpInd) % 256, rw := 0, dout := index }, false⟩
    else if s.cycle = 3 then ⟨endInstr (bump s) s.pc, true⟩
    else ⟨bump s, false⟩
  else if modeB = 3 then
    if s.cycle = 1 then
      ⟨{ bump s with tmp16 := setLo8 s.tmp16 din, pc := (s.pc + 1) % 65536,
                     addr := (s.pc + 1) % 65536, rw := 1 }, false⟩
    else if s.cycle = 2 then
      ⟨{ bump s with tmp16 := setHi8 s.tmp16 din, pc := (s.pc + 1) % 65536,
                     addr := cat8 (s.tmp16 % 256) din, dout := index, rw := 0 }, false⟩
    else if s.cycle = 3 then ⟨endInstr (bump s) s.pc, true⟩
    else ⟨bump s, false⟩
  else if modeB = 4 then
    if s.cycle = 1 then
      ⟨{ bump s with tmp16 := setLo8 s.tmp16 din, pc := (s.pc + 1) % 65536,
                     addr := (s.pc + 1) % 65536, rw := 1 }, false⟩
    else if s.cycle = 2 then
      ⟨{ bump s with tmp16 := setHi8 s.tmp16 din, pc := (s.pc + 1) % 65536,
                     addr := cat8 (s.tmp16 % 256 + s.x) din, rw := 1 }, false⟩
    else if s.cycle = 3 then
      ⟨{ bump s with addr := cat8 (s.tmp16 % 256 + s.x)
                       (s.tmp16 / 256 + (s.tmp16 % 256 + s.x) / 256), dout := s.a, rw := 0 }, false⟩
    else if s.cycle = 4 then ⟨endInstr (bump s) s.pc, true⟩
    else ⟨bump s, false⟩
  else if modeB = 5 then
    if s.cycle = 1 then
      ⟨{ bump s with tmp16 := setLo8 s.tmp16 din, pc := (s.pc + 1) % 65536,
                     addr := (s.pc + 1) % 65536, rw := 1 }, false⟩
    else if s.cycle = 2 then
      ⟨{ bump s with tmp16 := setHi8 s.tmp16 din, pc := (s.pc + 1) % 65536,
                     addr := cat8 (s.tmp16 % 256 + s.y) din, rw := 1 }, false⟩
    else if s.cycle = 3 then
      ⟨{ bump s with addr := cat8 (s.tmp16 % 256 + s.y)
                       (s.tmp16 / 256 + (s.tmp16 % 256 + s.y) / 256), dout := s.a, rw := 0 }, false⟩
    else if s.cycle = 4 then ⟨endInstr (bump s) s.pc, true⟩
    else ⟨bump s, false⟩
  else if modeB = 6 then
    if s.cycle = 1 then
      ⟨{ bump s with tmp8 := (din + s.x) % 256, pc := (s.pc + 1) % 65536,
                     addr := (din + s.x) % 256, rw := 1 }, false⟩
    else if s.cycle = 2 then
      ⟨{ bump s with tmp16 := setLo8 s.tmp16 din, addr := (s.tmp8 + 1) % 256,
                     rw := 1 }, false⟩
    else if s.cycle = 3 then
      ⟨{ bump s with tmp16 := setHi8 s.tmp16 din, addr := cat8 (s.tmp16 % 256) din,
                     rw := 1 }, false⟩
    else if s.cycle = 4 then
      ⟨{ bump s with tmp8 := din, addr := s.tmp16, dout := s.a, rw := 0 }, false⟩
    else if s.cycle = 5 then ⟨endInstr (bump s) s.pc, true⟩
    else ⟨bump s, false⟩
  else if modeB = 7 then
    if s.cycle = 1 then
      ⟨{ bump s with tmp8 := din, pc := (s.pc + 1) % 65536, addr := din, rw := 1 }, false⟩
    else if s.cycle = 2 then
      ⟨{ bump s with tmp16 := setLo8 s.tmp16 din, addr := (s.tmp8 + 1) % 256,
                     rw := 1 }, false⟩
    else if s.cycle = 3 then
      ⟨{ bump s with tmp16 := setHi8 s.tmp16 din,
                     addr := cat8 (s.tmp16 % 256 + s.y) din, rw := 1 }, false⟩
    else if s.cycle = 4 then
      ⟨{ bump s with addr := cat8 (s.tmp16 % 256 + s.y)
                       (s.tmp16 / 256 + (s.tmp16 % 256 + s.y) / 256), dout := s.a, rw := 0 }, false⟩
    else if s.cycle = 5 then ⟨endInstr (bump s) s.pc, true⟩
    else ⟨bump s, false⟩
  else ⟨bump s, false⟩

def JMP (s : State) (din : Nat) : StepOut :=
  let modeA := s.instr / 32 % 8
  if modeA = 2 then
    if s.cycle = 1 then
      ⟨{ bump s with tmp16 := setLo8 s.tmp16 din, pc := (s.pc + 1) % 65536,
                     addr := (s.pc + 1) % 65536, rw := 1 }, false⟩
    else if s.cycle = 2 then
      ⟨endInstr { bump s with tmp16 := setHi8 s.tmp16 din, pc := (s.pc + 1) % 65536 }
        (cat8 (s.tmp16 % 256) din), true⟩
    else ⟨bump s, false⟩
  else if modeA = 3 then
    if s.cycle = 1 then
      ⟨{ bump s with tmp16 := setLo8 s.tmp16 din, pc := (s.pc + 1) % 65536,
                     addr := (s.pc + 1) % 65536, rw := 1 }, false⟩
    else if s.cycle = 2 then
      ⟨{ bump s with tmp16 := setHi8 s.tmp16 din, pc := (s.pc + 1) % 65536,
                     addr := cat8 (s.tmp16 % 256) din, rw := 1 }, false⟩
    else if s.cycle = 3 then
      ⟨{ bump s with pc := setLo8 s.pc din,
                     addr := cat8 (s.tmp16 % 256 + 1) (s.tmp16 / 256), rw := 1 }, false⟩
    else if s.cycle = 4 then
      ⟨endInstr (bump s) (cat8 (s.pc % 256) din), true⟩
    else ⟨bump s, false⟩
  else ⟨bump s, false⟩

/-- `Core.branch_cond`: the branch condition selected by the opcode's
`aaa` field (BPL, BMI, BVC, BVS, BCC, BCS, BNE, BEQ). -/
def branch_cond (modeA flags : Nat) : Bool :=
  if modeA = 0 then bit flags FlagsN == 0
  else if modeA = 1 then bit flags FlagsN == 1
  else if modeA = 2 then bit flags FlagsV == 0
  else if modeA = 3 then bit flags FlagsV == 1
  else if modeA = 4 then bit flags FlagsC == 0
  else if modeA = 5 then bit flags FlagsC == 1
  else if modeA = 6 then bit flags FlagsZ == 0
  else bit flags FlagsZ == 1

def BR (s : State) (din : Nat) : StepOut :=
  let sum9 := s.pc % 256 + s.tmp8
  let backwards := bit s.tmp8 7
  let crossed := (sum9 / 256 + backwards) % 2
  if s.cycle = 1 then
    ⟨{ bump s with tmp8 := din, pc := (s.pc + 1) % 65536,
                   addr := (s.pc + 1) % 65536, rw := 1 }, false⟩
  else if s.cycle = 2 then
    ⟨{ bump s with tmp16 := cat8 sum9 (s.pc / 256) }, false⟩
  else if s.cycle = 3 then
    if branch_cond (s.instr / 32 % 8) s.flags then
      if crossed = 1 then
        ⟨{ bump s with tmp16 := setHi8 s.tmp16
                         (if backwards = 1 then s.tmp16 / 256 + 255 else s.tmp16 / 256 + 1) }, false⟩
      else ⟨endInstr (bump s) s.tmp16, true⟩
    else ⟨endInstr (bump s) s.pc, true⟩
  else if s.cycle = 4 then
    ⟨endInstr (bump s) s.tmp16, true⟩
  else ⟨bump s, false⟩

def CL_SE_C (s : State) : StepOut :=
  if s.cycle = 1 then
    let fn := if bit s.instr 5 = 1 then ALU8Func.SEC else ALU8Func.CLC
    ⟨endInstr { bump s with flags := (alu8 0 0 fn s.flags).2 } s.pc, true⟩
  else ⟨bump s, false⟩

def CL_SE_D (s : State) : StepOut :=
  if s.cycle = 1 then
    let fn := if bit s.instr 5 = 1 then ALU8Func.SED else ALU8Func.CLD
    ⟨endInstr { bump s with flags := (alu8 0 0 fn s.flags).2 } s.pc, true⟩
  else ⟨bump s, false⟩

def CL_SE_I (s : State) : StepOut :=
  if s.cycle = 1 then
    let fn := if bit s.instr 5 = 1 then ALU8Func.SEI else ALU8Func.CLI
    ⟨endInstr { bump s with flags := (alu8 0 0 fn s.flags).2 } s.pc, true⟩
  else ⟨bump s, false⟩

def CLV (s : State) : StepOut :=
  if s.cycle = 1 then
    ⟨endInstr { bump s with flags := (alu8 0 0 .CLV s.flags).2 } s.pc, true⟩
  else ⟨bump s, false⟩

def ALU_IMP (s : State) (din : Nat) (fn : ALU8Func) (out : R8) (store : Bool) :
    StepOut :=
  if s.cycle = 1 then
    let r := alu8 (getR s out) din fn s.flags
    let s1 := { bump s with tmp8 := din, flags := r.2 }
    ⟨endInstr (if store then setR s1 out r.1 else s1) ((s.pc + 1) % 65536), true⟩
  else ⟨bump s, false⟩

/-- `Core.mode_absolute_indexed`, used by `Core.ALU` for the
ABSOLUTE_X / ABSOLUTE_Y modes (`idx` is the index register's value). -/
def mode_absolute_indexed (s : State) (din : Nat) (fn : ALU8Func) (idx : Nat)
    (out : R8) (store : Bool) : StepOut :=
  let sum9 := s.tmp16 % 256 + idx
  if s.cycle = 1 then
    ⟨{ bump s with tmp16 := setLo8 s.tmp16 din, pc := (s.pc + 1) % 65536,
                   addr := (s.pc + 1) % 65536, rw := 1 }, false⟩
  else if s.cycle = 2 then
    ⟨{ bump s with tmp16 := setHi8 s.tmp16 din, pc := (s.pc + 1) % 65536,
                   addr := cat8 sum9 din, rw := 1 }, false⟩
  else if s.cycle = 3 then
    if sum9 / 256 = 1 then
      ⟨{ bump s with tmp16 := setHi8 s.tmp16 (s.tmp16 / 256 + 1),
                     addr := cat8 sum9 (s.tmp16 / 256 + 1), rw := 1 }, false⟩
    else
      let r := alu8 (getR s out) din fn s.flags
      let s1 := { bump s with flags := r.2 }
      ⟨endInstr (if store then setR s1 out r.1 else s1) s.pc, true⟩
  else if s.cycle = 4 then
    let r := alu8 (getR s out) din fn s.flags
    let s1 := { bump s with flags := r.2 }
    ⟨endInstr (if store then setR s1 out r.1 else s1) s.pc, true⟩
  else ⟨bump s, false⟩

def ALU (s : State) (din : Nat) (fn : ALU8Func) (xIdx : R8) (out : R8)
    (store : Bool) : StepOut :=
  let modeB := s.instr / 4 % 8
  if modeB = 6 then
    if s.cycle = 1 then
      ⟨{ bump s with tmp8 := (din + s.x) % 256, pc := (s.pc + 1) % 65536,
                     addr := (din + s.x) % 256, rw := 1 }, false⟩
    else if s.cycle = 2 then
      ⟨{ bump s with tmp16 := setLo8 s.tmp16 din, addr := (s.tmp8 + 1) % 256,
                     rw := 1 }, false⟩
    else if s.cycle = 3 then
      ⟨{ bump s with tmp16 := setHi8 s.tmp16 din, addr := cat8 (s.tmp16 % 256) din,
                     rw := 1 }, false⟩
    else if s.cycle = 4 then
      ⟨{ bump s with tmp8 := din }, false⟩
    else if s.cycle = 5 then
      let r := alu8 (getR s out) s.tmp8 fn s.flags
      let s1 := { bump s with flags := r.2 }
      ⟨endInstr (if store then setR s1 out r.1 else s1) s.pc, true⟩
    else ⟨bump s, false⟩
  else if modeB = 1 then
    if s.cycle = 1 then
      ⟨{ bump s with tmp16 := din, pc := (s.pc + 1) % 65536, addr := din,
                     rw := 1 }, false⟩
    else if s.cycle = 2 then
      let r := alu8 (getR s out) din fn s.flags
      let s1 := { bump s with flags := r.2 }
      ⟨endInstr (if store then setR s1 out r.1 else s1) s.pc, true⟩
    else ⟨bump s, false⟩
  else if modeB = 0 then
    if s.cycle = 1 then
      let r := alu8 (getR s out) din fn s.flags
      let s1 := { bump s with tmp8 := din, flags := r.2 }
      ⟨endInstr (if store then setR s1 out r.1 else s1) ((s.pc + 1) % 65536), true⟩
    else ⟨bump s, false⟩
  else if modeB = 3 then
    if s.cycle = 1 then
      ⟨{ bump s with tmp16 := setLo8 s.tmp16 din, pc := (s.pc + 1) % 65536,
                     addr := (s.pc + 1) % 65536, rw := 1 }, false⟩
    else if s.cycle = 2 then
      ⟨{ bump s with tmp16 := setHi8 s.tmp16 din, pc := (s.pc + 1) % 65536,
                     addr := cat8 (s.tmp16 % 256) din, rw := 1 }, false⟩
    else if s.cycle = 3 then
      let r := alu8 (getR s out) din fn s.flags
      let s1 := { bump s with flags := r.2 }
      ⟨endInstr (if store then setR s1 out r.1 else s1) s.pc, true⟩
    else ⟨bump s, false⟩
  else if modeB = 7 then
    if s.cycle = 1 then
      ⟨{ bump s with tmp8 := din, pc := (s.pc + 1) % 65536, addr := din,
                     rw := 1 }, false⟩
    else if s.cycle = 2 then
      ⟨{ bump s with tmp16 := setLo8 s.tmp16 din, addr := (s.tmp8 + 1) % 256,
                     rw := 1 }, false⟩
    else if s.cycle = 3 then
      ⟨{ bump s with tmp16 := setHi8 s.tmp16 din,
                     addr := cat8 (s.tmp16 % 256 + s.y) din, rw := 1 }, false⟩
    else if s.cycle = 4 then
      let r := alu8 (getR s out) din fn s.flags
      let s1 := { bump s with flags := r.2 }
      let s2 := if store then setR s1 out r.1 else s1
      if (s.tmp16 % 256 + s.y) / 256 = 1 then
        ⟨{ s2 with addr := cat8 (s.tmp16 % 256) (s.tmp16 / 256 + 1), rw := 1 }, false⟩
      else ⟨endInstr s2 s.pc, true⟩
    else if s.cycle = 5 then
      let r := alu8 (getR s out) din fn s.flags
      let s1 := { bump s with flags := r.2 }
      ⟨(if store then setR s1 out r.1 else s1), false⟩
    else ⟨bump s, false⟩
  else if modeB = 2 then
    if s.cycle = 1 then
      ⟨{ bump s with pc := (s.pc + 1) % 65536, tmp8 := din, addr := din,
                     rw := 1 }, false⟩
    else if s.cycle = 2 then
      ⟨{ bump s with addr := (s.tmp8 + getR s xIdx) % 256, rw := 1 }, false⟩
    else if s.cycle = 3 then
      let r := alu8 (getR s out) din fn s.flags
      let s1 := { bump s with flags := r.2 }
      ⟨endInstr (if store then setR s1 out r.1 else s1) s.pc, true⟩
    else ⟨bump s, false⟩
  else if modeB = 5 then
    mode_absolute_indexed s din fn s.y out store
  else if modeB = 4 then
    mode_absolute_indexed s din fn (getR s xIdx) out store
  else ⟨bump s, false⟩

def ALU2 (s : State) (din : Nat) (fn : ALU8Func) : StepOut :=
  let modeB := s.instr / 4 % 8
  if modeB = 0 then
    if s.cycle = 1 then
      let r := alu8 s.a 0 fn s.flags
      ⟨endInstr { bump s with a := r.1, flags := r.2 } s.pc, true⟩
    else ⟨bump s, false⟩
  else if modeB = 1 then
    if s.cycle = 1 then
      ⟨{ bump s with tmp16 := din, pc := (s.pc + 1) % 65536, addr := din,
                     rw := 1 }, false⟩
    else if s.cycle = 2 then
      ⟨{ bump s with tmp8 := din, rw := 0, addr := s.tmp16, dout := din }, false⟩
    else if s.cycle = 3 then
      let r := alu8 s.tmp8 0 fn s.flags
      ⟨{ bump s with flags := r.2, rw := 0, addr := s.tmp16, dout := r.1 }, false⟩
    else if s.cycle = 4 then ⟨endInstr (bump s) s.pc, true⟩
    else ⟨bump s, false⟩
  else if modeB = 2 then
    if s.cycle = 1 then
      ⟨{ bump s with tmp16 := din, addr := din, rw := 1 }, false⟩
    else if s.cycle = 2 then
      ⟨{ bump s with tmp16 := setLo8 s.tmp16 (s.tmp16 % 256 + s.x),
                     addr := (s.tmp16 % 256 + s.x) % 256, rw := 1 }, false⟩
    else if s.cycle = 3 then
      ⟨{ bump s with tmp8 := din, rw := 0, addr := s.tmp16 }, false⟩
    else if s.cycle = 4 then
      let r := alu8 s.tmp8 0 fn s.flags
      ⟨{ bump s with flags := r.2, rw := 0, addr := s.tmp16, dout := r.1 }, false⟩
    else if s.cycle = 5 then ⟨endInstr (bump s) s.pc, true⟩
    else ⟨bump s, false⟩
  else if modeB = 3 then
    if s.cycle = 1 then
      ⟨{ bump s with tmp16 := setLo8 s.tmp16 din, pc := (s.pc + 1) % 65536,
                     addr := (s.pc + 1) % 65536, rw := 1 }, false⟩
    else if s.cycle = 2 then
      ⟨{ bump s with tmp16 := setHi8 s.tmp16 din, pc := (s.pc + 1) % 65536,
                     addr := cat8 (s.tmp16 % 256) din, rw := 1 }, false⟩
    else if s.cycle = 3 then
      ⟨{ bump s with tmp8 := din, rw := 1, addr := s.tmp16, dout := din }, false⟩
    else if s.cycle = 4 then
      let r := alu8 s.tmp8 0 fn s.flags
      ⟨{ bump s with flags := r.2, rw := 0, addr := s.tmp16, dout := r.1 }, false⟩
    else if s.cycle = 5 then ⟨endInstr (bump s) s.pc, true⟩
    else ⟨bump s, false⟩
  else if modeB = 4 then
    if s.cycle = 1 then
      ⟨{ bump s with tmp16 := setLo8 s.tmp16 din, pc := (s.pc + 1) % 65536,
                     addr := (s.pc + 1) % 65536, rw := 1 }, false⟩
    else if s.cycle = 2 then
      ⟨{ bump s with pc := (s.pc + 1) % 65536,
                     tmp16 := cat8 (s.tmp16 % 256 + s.x) (din + (s.tmp16 % 256 + s.x) / 256),
                     addr := cat8 (s.tmp16 % 256 + s.x) (s.tmp16 / 256), rw := 1 }, false⟩
    else if s.cycle = 3 then
      ⟨{ bump s with addr := s.tmp16, rw := 1 }, false⟩
    else if s.cycle = 4 then
      ⟨{ bump s with tmp8 := din, rw := 0, addr := s.tmp16, dout := din }, false⟩
    else if s.cycle = 5 then
      let r := alu8 s.tmp8 0 fn s.flags
      ⟨{ bump s with flags := r.2, rw := 0, addr := s.tmp16, dout := r.1 }, false⟩
    else if s.cycle = 6 then ⟨endInstr (bump s) s.pc, true⟩
    else ⟨bump s, false⟩
  else ⟨bump s, false⟩

/-- The disjunction of every `Case` condition of `Core.execute`'s
opcode `Switch`, in source order; an opcode is dispatched iff it
matches one of them, otherwise the `Default` (illegal) case runs. -/
def matched (op : Nat) : Bool :=
  op == 0x00 || op == 0x40 || op == 0xEA ||
  (op % 32 == 24 && op / 64 == 0) ||
  (op % 32 == 24 && op / 64 == 3) ||
  (op % 32 == 24 && op / 64 == 1) ||
  op == 0xB8 ||
  (op % 32 == 12 && op / 64 == 1) ||
  op % 32 == 16 ||
  op == 0x20 || op == 0x60 || op == 0x48 || op == 0x08 || op == 0x68 ||
  op == 0x28 || op == 0xAA || op == 0xA8 || op == 0xBA || op == 0x8A ||
  op == 0x9A || op == 0x98 || op == 0xE8 || op == 0xC8 || op == 0xCA ||
  op == 0x88 ||
  (op == 0x85 || op == 0x95 || op == 0x8D || op == 0x9D || op == 0x99 ||
    op == 0x81 || op == 0x91) ||
  (op == 0x86 || op == 0x96 || op == 0x8E) ||
  (op == 0x84 || op == 0x94 || op == 0x8C) ||
  (op == 0xE6 || op == 0xEE || op == 0xF6 || op == 0xFE) ||
  (op == 0xC6 || op == 0xCE || op == 0xD6 || op == 0xDE) ||
  (op == 0x0A || op == 0x06 || op == 0x16 || op == 0x0E || op == 0x1E) ||
  (op == 0x2A || op == 0x26 || op == 0x36 || op == 0x2E || op == 0x3E) ||
  (op == 0x4A || op == 0x46 || op == 0x56 || op == 0x4E || op == 0x5E) ||
  (op == 0x6A || op == 0x66 || op == 0x76 || op == 0x6E || op == 0x7E) ||
  op == 0xE0 || (op == 0xE4 || op == 0xEC) ||
  op == 0xC0 || (op == 0xC4 || op == 0xCC) ||
  op == 0xA2 || op == 0xA0 ||
  (op == 0xA6 || op == 0xB6 || op == 0xAE || op == 0xBE) ||
  (op == 0xA4 || op == 0xB4 || op == 0xAC || op == 0xBC) ||
  (op % 4 == 1 && op / 32 == 5) ||
  (op % 4 == 1 && op / 32 == 3) ||
  (op % 4 == 1 && op / 32 == 7) ||
  (op % 4 == 1 && op / 32 == 0) ||
  (op % 4 == 1 && op / 32 == 1) ||
  (op % 4 == 1 && op / 32 == 2) ||
  (op % 8 == 4 && op / 16 == 2) ||
  (op % 4 == 1 && op / 32 == 6)

/-- The body of `Core.execute`'s `Switch` for a dispatched opcode, with
the cases in source order (they are pairwise disjoint). -/
def executeOp (s : State) (din : Nat) : StepOut :=
  let op := s.instr
  if op == 0x00 then BRK s din
  else if op == 0x40 then RTI s din
  else if op == 0xEA then NOP s
  else if op % 32 == 24 && op / 64 == 0 then CL_SE_C s
  else if op % 32 == 24 && op / 64 == 3 then CL_SE_D s
  else if op % 32 == 24 && op / 64 == 1 then CL_SE_I s
  else if op == 0xB8 then CLV s
  else if op % 32 == 12 && op / 64 == 1 then JMP s din
  else if op % 32 == 16 then BR s din
  else if op == 0x20 then JSR s din
  else if op == 0x60 then RTS s din
  else if op == 0x48 then PUSH s s.a
  else if op == 0x08 then PUSH s s.flags
  else if op == 0x68 then PULL s din .LD true
  else if op == 0x28 then PULL s din .LDSR false
  else if op == 0xAA then TR s .LD .A .X
  else if op == 0xA8 then TR s .LD .A .Y
  else if op == 0xBA then TR s .LD .SP .X
  else if op == 0x8A then TR s .LD .X .A
  else if op == 0x9A then TR s .TR .X .SP
  else if op == 0x98 then TR s .LD .Y .A
  else if op == 0xE8 then INC_DEC_IND s .INC .X
  else if op == 0xC8 then INC_DEC_IND s .INC .Y
  else if op == 0xCA then INC_DEC_IND s .DEC .X
  else if op == 0x88 then INC_DEC_IND s .DEC .Y
  else if op == 0x85 || op == 0x95 || op == 0x8D || op == 0x9D || op == 0x99 ||
      op == 0x81 || op == 0x91 then ST s din
  else if op == 0x86 || op == 0x96 || op == 0x8E then ST s din
  else if op == 0x84 || op == 0x94 || op == 0x8C then ST s din
  else if op == 0xE6 || op == 0xEE || op == 0xF6 || op == 0xFE then ALU2 s din .INC
  else if op == 0xC6 || op == 0xCE || op == 0xD6 || op == 0xDE then ALU2 s din .DEC
  else if op == 0x0A || op == 0x06 || op == 0x16 || op == 0x0E || op == 0x1E then
    ALU2 s din .ASL
  else if op == 0x2A || op == 0x26 || op == 0x36 || op == 0x2E || op == 0x3E then
    ALU2 s din .ROL
  else if op == 0x4A || op == 0x46 || op == 0x56 || op == 0x4E || op == 0x5E then
    ALU2 s din .LSR
  else if op == 0x6A || op == 0x66 || op == 0x76 || op == 0x6E || op == 0x7E then
    ALU2 s din .ROR
  else if op == 0xE0 then ALU_IMP s din .SUB .X false
  else if op == 0xE4 || op == 0xEC then ALU s din .SUB .X .X false
  else if op == 0xC0 then ALU_IMP s din .SUB .Y false
  else if op == 0xC4 || op == 0xCC then ALU s din .SUB .X .Y false
  else if op == 0xA2 then ALU_IMP s din .LD .X true
  else if op == 0xA0 then ALU_IMP s din .LD .Y true
  else if op == 0xA6 || op == 0xB6 || op == 0xAE || op == 0xBE then
    ALU s din .LD .Y .X true
  else if op == 0xA4 || op == 0xB4 || op == 0xAC || op == 0xBC then
    ALU s din .LD .X .Y true
  else if op % 4 == 1 && op / 32 == 5 then ALU s din .LD .X .A true
  else if op % 4 == 1 && op / 32 == 3 then ALU s din .ADC .X .A true
  else if op % 4 == 1 && op / 32 == 7 then ALU s din .SBC .X .A true
  else if op % 4 == 1 && op / 32 == 0 then ALU s din .ORA .X .A true
  else if op % 4 == 1 && op / 32 == 1 then ALU s din .AND .X .A true
  else if op % 4 == 1 && op / 32 == 2 then ALU s din .EOR .X .A true
  else if op % 8 == 4 && op / 16 == 2 then ALU s din .AND .X .A false
  else if op % 4 == 1 && op / 32 == 6 then ALU s din .SUB .X .A false
  else ⟨endInstr (bump s) s.pc, true⟩

/-- `Core.execute`: dispatch on the latched opcode; an opcode matching
no `Case` falls to the `Default`, which ends the instruction at the
current PC with no other state change. -/
def execute (s : State) (din : Nat) : StepOut :=
  if matched s.instr then executeOp s din
  else ⟨endInstr (bump s) s.pc, true⟩

/-- `Core.fetch`: latch the opcode from `Din`, advance PC and drive the
next address. -/
def fetch (s : State) (din : Nat) : StepOut :=
  ⟨{ bump s with instr := din, rw := 1, pc := (s.pc + 1) % 65536,
                 addr := (s.pc + 1) % 65536 }, false⟩

/-- One `ph1` clock edge of `Core.elaborate`: the reset handler for
reset states 0-2, then fetch (cycle 0) or execute.  `din0` is the
`Din` input byte (truncated to 8 bits like the `Signal`). -/
def stepo (s : State) (din0 : Nat) : StepOut :=
  let din := din0 % 256
  if s.resetState = 0 then
    ⟨{ bump s with addr := 0xFFFE, rw := 1, resetState := 1 }, false⟩
  else if s.resetState = 1 then
    ⟨{ bump s with addr := 0xFFFF, rw := 1, tmp8 := din, resetState := 2 }, false⟩
  else if s.resetState = 2 then
    ⟨endInstr { bump s with resetState := 3 } (cat8 s.tmp8 din), true⟩
  else if s.cycle = 0 then fetch s din
  else execute s din

def step (s : State) (din : Nat) : State := (stepo s din).next

/-- Closed-loop run against a combinational memory: during each cycle
the memory answers the address the core drives, and the next state is
committed at the edge. -/
def run (mem : Nat → Nat) (s : State) : Nat → State
  | 0 => s
  | n + 1 => step (run mem s n) (mem (run mem s n).addr)

/-- Whether the `end_instr_flag` is asserted during cycle `k` of a run. -/
def endFlagAt (mem : Nat → Nat) (s : State) (k : Nat) : Bool :=
  (stepo (run mem s k) (mem (run mem s k).addr)).endI

/-- The instruction started at state `s` (its opcode-fetch cycle)
consumes exactly `n` cycles: end-of-instruction is asserted on cycle
`n - 1` and on no earlier cycle. -/
def consumes (mem : Nat → Nat) (s : State) (n : Nat) : Prop :=
  endFlagAt mem s (n - 1) = true ∧ ∀ k, k < n - 1 → endFlagAt mem s k = false

/-- Number of write bus cycles (RW driven low) among the first `n`
cycles of a run. -/
def writesIn (mem : Nat → Nat) (s : State) (n : Nat) : Nat :=
  ((List.range n).filter (fun k => (run mem s k).rw == 0)).length

end Core

theorem bit_set0_5 (v b : Nat) : bit (setBit v 0 b) 5 = bit v 5 := by
  unfold bit setBit; norm_num; omega

theorem bit_set1_5 (v b : Nat) : bit (setBit v 1 b) 5 = bit v 5 := by
  unfold bit setBit; norm_num; omega

theorem bit_set2_5 (v b : Nat) : bit (setBit v 2 b) 5 = bit v 5 := by
  unfold bit setBit; norm_num; omega

theorem bit_set3_5 (v b : Nat) : bit (setBit v 3 b) 5 = bit v 5 := by
  unfold bit setBit; norm_num; omega

theorem bit_set6_5 (v b : Nat) : bit (setBit v 6 b) 5 = bit v 5 := by
  unfold bit setBit; norm_num; omega

theorem bit_set7_5 (v b : Nat) : bit (setBit v 7 b) 5 = bit v 5 := by
  unfold bit setBit; norm_num; omega

theorem bit_set1_0 (v b : Nat) : bit (setBit v 1 b) 0 = bit v 0 := by
  unfold bit setBit; norm_num; omega

theorem bit_set7_0 (v b : Nat) : bit (setBit v 7 b) 0 = bit v 0 := by
  unfold bit setBit; norm_num; omega

theorem bit_set1_2 (v b : Nat) : bit (setBit v 1 b) 2 = bit v 2 := by
  unfold bit setBit; norm_num; omega

theorem bit_set7_2 (v b : Nat) : bit (setBit v 7 b) 2 = bit v 2 := by
  unfold bit setBit; norm_num; omega

theorem bit_set1_3 (v b : Nat) : bit (setBit v 1 b) 3 = bit v 3 := by
  unfold bit setBit; norm_num; omega

theorem bit_set7_3 (v b : Nat) : bit (setBit v 7 b) 3 = bit v 3 := by
  unfold bit setBit; norm_num; omega

theorem bit_set1_4 (v b : Nat) : bit (setBit v 1 b) 4 = bit v 4 := by
  unfold bit setBit; norm_num; omega

theorem bit_set7_4 (v b : Nat) : bit (setBit v 7 b) 4 = bit v 4 := by
  unfold bit setBit; norm_num; omega

theorem bit_set1_6 (v b : Nat) : bit (setBit v 1 b) 6 = bit v 6 := by
  unfold bit setBit; norm_num; omega

theorem bit_set7_6 (v b : Nat) : bit (setBit v 7 b) 6 = bit v 6 := by
  unfold bit setBit; norm_num; omega

theorem bit_set0_3 (v b : Nat) : bit (setBit v 0 b) 3 = bit v 3 := by
  unfold bit setBit; norm_num; omega

theorem bit_set6_3 (v b : Nat) : bit (setBit v 6 b) 3 = bit v 3 := by
  unfold bit setBit; norm_num; omega

theorem bit_set0_0 (v b : Nat) : bit (setBit v 0 b) 0 = b % 2 := by
  unfold bit setBit; norm_num; omega

theorem bit_lt_two (v i : Nat) : bit v i < 2 := by
  unfold bit; omega

theorem setBit_lt0 (v b : Nat) (hv : v < 256) : setBit v 0 b < 256 := by
  unfold setBit; norm_num; omega

theorem setBit_lt1 (v b : Nat) (hv : v < 256) : setBit v 1 b < 256 := by
  unfold setBit; norm_num; omega

theorem setBit_lt2 (v b : Nat) (hv : v < 256) : setBit v 2 b < 256 := by
  unfold setBit; norm_num; omega

theorem setBit_lt3 (v b : Nat) (hv : v < 256) : setBit v 3 b < 256 := by
  unfold setBit; norm_num; omega

theorem setBit_lt6 (v b : Nat) (hv : v < 256) : setBit v 6 b < 256 := by
  unfold setBit; norm_num; omega

theorem setBit_lt7 (v b : Nat) (hv : v < 256) : setBit v 7 b < 256 := by
  unfold setBit; norm_num; omega

/-- Every flags byte the ALU returns fits in 8 bits. -/
theorem alu8_flags_lt (i1 i2 : Nat) (fn : ALU8Func) (f : Nat) :
    (alu8 i1 i2 fn f).2 < 256 := by
  cases fn <;> simp only [alu8] <;>
    first
      | exact Nat.mod_lt _ (by norm_num)
      | (repeat
          first
            | apply setBit_lt0 | apply setBit_lt1 | apply setBit_lt2
            | apply setBit_lt3 | apply setBit_lt6 | apply setBit_lt7
            | exact Nat.mod_lt _ (by norm_num))

theorem ite_mod2 (x : Nat) : (if x % 2 = 1 then 1 else 0) = x % 2 := by
  split_ifs <;> omega

/-- Nibble-wise addition with half-carry propagation (the binary path of
the ADC/SBC cases) computes the 8-bit sum and the bit-8 carry-out. -/
theorem nibble_sum (x y c rl rh : Nat) (hx : x < 256) (hy : y < 256) (hc : c < 2)
    (e1 : rl = x % 16 + y % 16 + c)
    (e3 : rh = x / 16 + y / 16 + rl / 16 % 2) :
    rl % 16 + rh % 16 * 16 = (x + y + c) % 256 ∧
    rh / 16 % 2 = (x + y + c) / 256 := by
  omega

/-- With D = 0 the ADC case is a plain 9-bit binary add: output, carry-out
and the preserved D flag, exactly as computed by `ALU8.elaborate`. -/
theorem adc_binary (a b f : Nat) (ha : a < 256) (hb : b < 256) (hf : f < 256)
    (hD : bit f 3 = 0) :
    (alu8 a b .ADC f).1 = (a + b + bit f 0) % 256 ∧
    bit (alu8 a b .ADC f).2 0 = (a + b + bit f 0) / 256 ∧
    bit (alu8 a b .ADC f).2 3 = 0 := by
  have hf' : f % 256 = f := Nat.mod_eq_of_lt hf
  have hc2 : bit f 0 < 2 := bit_lt_two f 0
  have key := nibble_sum a b (bit f 0) (a % 16 + b % 16 + bit f 0)
    (a / 16 + b / 16 + (a % 16 + b % 16 + bit f 0) / 16 % 2) ha hb hc2 rfl rfl
  refine ⟨?_, ?_, ?_⟩ <;>
    simp only [alu8, FlagsC, FlagsD, Nat.mod_eq_of_lt ha, Nat.mod_eq_of_lt hb, hf',
      bit_set0_0, bit_set0_3, bit_set6_3, bit_set1_3, bit_set7_3, hD] <;>
    norm_num <;> simp only [ite_mod2] <;> omega

/-- With D = 0 the SBC case adds the ones-complement of input2 with the
carry-in, exactly as computed by `ALU8.elaborate`. -/
theorem sbc_binary (r b f : Nat) (hr : r < 256) (hb : b < 256) (hf : f < 256)
    (hD : bit f 3 = 0) :
    (alu8 r b .SBC f).1 = (r + (255 - b) + bit f 0) % 256 := by
  have hf' : f % 256 = f := Nat.mod_eq_of_lt hf
  have hc2 : bit f 0 < 2 := bit_lt_two f 0
  have key := nibble_sum r (255 - b) (bit f 0)
    (r % 16 + (15 - b % 16) + bit f 0)
    (r / 16 + (15 - b / 16) + (r % 16 + (15 - b % 16) + bit f 0) / 16 % 2)
    hr (by omega) hc2 (by omega) (by omega)
  simp only [alu8, FlagsC, FlagsD, Nat.mod_eq_of_lt hr, Nat.mod_eq_of_lt hb, hf', hD]
  norm_num
  simp only [ite_mod2]
  omega

/-- C3 counterexample: the ALU invocation with `func = LD`, both inputs 0
and `flags_in = 0` returns a flags byte whose bit 5 is 0, refuting the
claim that bit 5 of `flags_out` always equals 1. -/
theorem C3_counterexample : bit (alu8 0 0 .LD 0).2 5 ≠ 1 := by decide

/-- C3 (amended): bit 5 of the ALU's returned `_sr_flags` is merely passed
through — it equals bit 5 of `flags_in` for every function except LDSR,
and equals bit 5 of `input2` for LDSR.  No case of `ALU8.elaborate`
forces it to 1. -/
theorem C3_bit5_passthrough (i1 i2 : Nat) (fn : ALU8Func) (f : Nat)
    (hi2 : i2 < 256) (hf : f < 256) :
    bit (alu8 i1 i2 fn f).2 5 = if fn = .LDSR then bit i2 5 else bit f 5 := by
  cases fn <;>
    simp [alu8, FlagsC, FlagsD, FlagsI, FlagsV, Nat.mod_eq_of_lt hf, Nat.mod_eq_of_lt hi2,
      bit_set0_5, bit_set1_5, bit_set2_5, bit_set3_5, bit_set6_5, bit_set7_5]

/-- C3 witness: the pass-through theorem applied at a concrete invocation. -/
theorem C3_witness :
    bit (alu8 0 0 .LD 32).2 5 = if ALU8Func.LD = .LDSR then bit 0 5 else bit 32 5 :=
  C3_bit5_passthrough 0 0 .LD 32 (by norm_num) (by norm_num)

/-- C4: BCD ADC (D flag set, carry-in 0): 0x19 + 0x01 gives 0x20 with C
clear, and 0x99 + 0x01 gives 0x00 with C set, for every such flag state. -/
theorem C4_bcd_adc (f : Nat) (hf : f < 256) (hD : bit f 3 = 1) (hC : bit f 0 = 0) :
    (alu8 0x19 0x01 .ADC f).1 = 0x20 ∧ bit (alu8 0x19 0x01 .ADC f).2 0 = 0 ∧
    (alu8 0x99 0x01 .ADC f).1 = 0x00 ∧ bit (alu8 0x99 0x01 .ADC f).2 0 = 1 := by
  have hf' : f % 256 = f := Nat.mod_eq_of_lt hf
  refine ⟨?_, ?_, ?_, ?_⟩ <;>
    simp only [alu8, FlagsC, FlagsD, hf', hD, hC, bit_set0_0] <;> norm_num

/-- C4 witness: the theorem applied at the concrete flag byte 0x28. -/
theorem C4_witness :
    (alu8 0x19 0x01 .ADC 0x28).1 = 0x20 ∧ bit (alu8 0x19 0x01 .ADC 0x28).2 0 = 0 ∧
    (alu8 0x99 0x01 .ADC 0x28).1 = 0x00 ∧ bit (alu8 0x99 0x01 .ADC 0x28).2 0 = 1 :=
  C4_bcd_adc 0x28 (by norm_num) (by decide) (by decide)

/-- C5 counterexample: with D = 0 and carry-in 0 (flags 0x20), ADC(5, 3)
yields result 8 with carry-out 0, but SBC(8, 3) with that carry-in
returns 4, not 5 — refuting the round-trip claim at a concrete input. -/
theorem C5_counterexample :
    (alu8 (alu8 5 3 .ADC 0x20).1 3 .SBC (alu8 5 3 .ADC 0x20).2).1 ≠ 5 := by decide

/-- C5 (amended): for all 8-bit `a`, `b` and any binary-mode flag state
(D = 0, carry-in = C bit of the flags), chaining ADC with SBC on the
ADC output flags (so SBC's carry-in is ADC's carry-out c') returns
`a + carry_in + c' - 1 (mod 256)`; it returns `a` exactly when one of
carry_in, c' is 1, not unconditionally. -/
theorem C5_adc_sbc_roundtrip (a b f : Nat) (ha : a < 256) (hb : b < 256)
    (hf : f < 256) (hD : bit f 3 = 0) :
    (alu8 (alu8 a b .ADC f).1 b .SBC (alu8 a b .ADC f).2).1
      = (a + bit f 0 + bit (alu8 a b .ADC f).2 0 + 255) % 256 := by
  obtain ⟨h1, h2, h3⟩ := adc_binary a b f ha hb hf hD
  have hr : (alu8 a b .ADC f).1 < 256 := by rw [h1]; omega
  have hsb := sbc_binary (alu8 a b .ADC f).1 b (alu8 a b .ADC f).2 hr hb
    (alu8_flags_lt a b .ADC f) h3
  rw [hsb, h1, h2]
  omega

/-- C5 witness: the amended round trip applied at a = 5, b = 3, flags 0x20. -/
theorem C5_witness :
    (alu8 (alu8 5 3 .ADC 0x20).1 3 .SBC (alu8 5 3 .ADC 0x20).2).1
      = (5 + bit 0x20 0 + bit (alu8 5 3 .ADC 0x20).2 0 + 255) % 256 :=
  C5_adc_sbc_roundtrip 5 3 0x20 (by norm_num) (by norm_num) (by norm_num) (by decide)

/-- C9: the ORA, AND and EOR cases of the ALU assign only the N and Z
flags; the C, V, B, D and I bits of `flags_out` equal those of
`flags_in`, for every pair of inputs and every flag state. -/
theorem C9_logic_flag_isolation (i1 i2 : Nat) (fn : ALU8Func) (f : Nat)
    (hf : f < 256) (hfn : fn = .ORA ∨ fn = .AND ∨ fn = .EOR) :
    bit (alu8 i1 i2 fn f).2 0 = bit f 0 ∧ bit (alu8 i1 i2 fn f).2 6 = bit f 6 ∧
    bit (alu8 i1 i2 fn f).2 4 = bit f 4 ∧ bit (alu8 i1 i2 fn f).2 3 = bit f 3 ∧
    bit (alu8 i1 i2 fn f).2 2 = bit f 2 := by
  have hf' : f % 256 = f := Nat.mod_eq_of_lt hf
  rcases hfn with h | h | h <;> subst h <;>
    simp [alu8, hf', bit_set1_0, bit_set7_0, bit_set1_6, bit_set7_6,
      bit_set1_4, bit_set7_4, bit_set1_3, bit_set7_3, bit_set1_2, bit_set7_2]

/-- C9 witness: flag isolation applied at a concrete ORA invocation. -/
theorem C9_witness :
    bit (alu8 0xF0 0x0F .ORA 0xFF).2 0 = bit 0xFF 0 ∧
    bit (alu8 0xF0 0x0F .ORA 0xFF).2 6 = bit 0xFF 6 ∧
    bit (alu8 0xF0 0x0F .ORA 0xFF).2 4 = bit 0xFF 4 ∧
    bit (alu8 0xF0 0x0F .ORA 0xFF).2 3 = bit 0xFF 3 ∧
    bit (alu8 0xF0 0x0F .ORA 0xFF).2 2 = bit 0xFF 2 :=
  C9_logic_flag_isolation 0xF0 0x0F .ORA 0xFF (by norm_num) (Or.inl rfl)

set_option maxRecDepth 4096 in
/-- Bits 4 and 5 of a byte ORed with 0x30 are 1, and the result still
fits in 8 bits. -/
theorem lor48_bits (f : Nat) (hf : f < 256) :
    bit (f ||| 48) 4 = 1 ∧ bit (f ||| 48) 5 = 1 ∧ (f ||| 48) % 256 = f ||| 48 := by
  revert hf; revert f
  decide

/-- C6: from power-on (`reset_state = 0`, registers at their reset
values, PC and the opcode latch undefined), the reset handler drives a
read of 0xFFFE on cycle 1 and of 0xFFFF on cycle 2; when the sequence
completes, PC holds the low byte from 0xFFFE and the high byte from
0xFFFF, the fetch address equals that PC, and the first opcode is
latched from it. -/
theorem C6_reset_sequence (mem : Nat → Nat) (pc0 i0 : Nat) :
    let s0 : Core.State := ⟨0, 0, 0, 0xFF, pc0, 0, 0, i0, 0x20, 0, 0, 1, 0, 0⟩
    (Core.run mem s0 1).addr = 0xFFFE ∧ (Core.run mem s0 1).rw = 1 ∧
    (Core.run mem s0 2).addr = 0xFFFF ∧ (Core.run mem s0 2).rw = 1 ∧
    (Core.run mem s0 3).pc = mem 0xFFFE % 256 + mem 0xFFFF % 256 * 256 ∧
    (Core.run mem s0 3).addr = (Core.run mem s0 3).pc ∧
    (Core.run mem s0 3).cycle = 0 ∧ (Core.run mem s0 3).resetState = 3 ∧
    (Core.run mem s0 4).instr = mem ((Core.run mem s0 3).pc) % 256 := by
  intro s0
  refine ⟨?_, ?_, ?_, ?_, ?_, ?_, ?_, ?_, ?_⟩ <;>
    simp [s0, Core.run, Core.step, Core.stepo, Core.fetch, Core.bump, Core.endInstr,
      cat8] <;>
    omega

/-- C7: an opcode matching no dispatch case ends the instruction at
cycle 1 (2 cycles total, no hang): A, X, Y, SP and the flags are
unchanged, both cycles drive the read line, and the next opcode fetch
is issued from the current PC (the byte after the illegal opcode). -/
theorem C7_illegal_opcode (mem : Nat → Nat)
    (a0 x0 y0 sp0 pc0 t8 t16 i0 f0 d0 op : Nat)
    (hpc : pc0 < 65536) (hop : op < 256) (hill : Core.matched op = false)
    (hm : mem pc0 = op) :
    let s0 : Core.State := ⟨a0, x0, y0, sp0, pc0, t8, t16, i0, f0, pc0, d0, 1, 0, 3⟩
    Core.endFlagAt mem s0 0 = false ∧ Core.endFlagAt mem s0 1 = true ∧
    (Core.run mem s0 1).rw = 1 ∧ (Core.run mem s0 2).rw = 1 ∧
    (Core.run mem s0 2).a = a0 ∧ (Core.run mem s0 2).x = x0 ∧
    (Core.run mem s0 2).y = y0 ∧ (Core.run mem s0 2).sp = sp0 ∧
    (Core.run mem s0 2).flags = f0 ∧
    (Core.run mem s0 2).pc = (pc0 + 1) % 65536 ∧
    (Core.run mem s0 2).addr = (pc0 + 1) % 65536 ∧
    (Core.run mem s0 2).cycle = 0 := by
  intro s0
  refine ⟨?_, ?_, ?_, ?_, ?_, ?_, ?_, ?_, ?_, ?_, ?_, ?_⟩ <;>
    simp [s0, Core.endFlagAt, Core.run, Core.step, Core.stepo, Core.fetch,
      Core.execute, Core.bump, Core.endInstr, hm, Nat.mod_eq_of_lt hop, hill]

/-- C7 witness: the illegal-opcode theorem applied to opcode 0x02. -/
theorem C7_witness :
    let mem : Nat → Nat := fun a => if a = 0x200 then 0x02 else 0
    let s0 : Core.State := ⟨1, 2, 3, 0xFF, 0x200, 0, 0, 0, 0x20, 0x200, 0, 1, 0, 3⟩
    Core.endFlagAt mem s0 0 = false ∧ Core.endFlagAt mem s0 1 = true ∧
    (Core.run mem s0 1).rw = 1 ∧ (Core.run mem s0 2).rw = 1 ∧
    (Core.run mem s0 2).a = 1 ∧ (Core.run mem s0 2).x = 2 ∧
    (Core.run mem s0 2).y = 3 ∧ (Core.run mem s0 2).sp = 0xFF ∧
    (Core.run mem s0 2).flags = 0x20 ∧
    (Core.run mem s0 2).pc = (0x200 + 1) % 65536 ∧
    (Core.run mem s0 2).addr = (0x200 + 1) % 65536 ∧
    (Core.run mem s0 2).cycle = 0 :=
  C7_illegal_opcode _ 1 2 3 0xFF 0x200 0 0 0 0x20 0 0x02
    (by norm_num) (by norm_num) (by decide) rfl

/-- C10: PHP (opcode 0x08) drives the status byte onto the stack
exactly as held, with no bits forced — so the pushed B bit equals the
live B flag — while BRK (opcode 0x00) pushes the status ORed with
0x30 (bits 4 and 5 forced to 1), for every status register value. -/
theorem C10_php_brk_status (mem : Nat → Nat)
    (a0 x0 y0 sp0 pc0 t8 t16 i0 f0 d0 : Nat)
    (hpc : pc0 < 65536) (hf : f0 < 256) :
    let s0 : Core.State := ⟨a0, x0, y0, sp0, pc0, t8, t16, i0, f0, pc0, d0, 1, 0, 3⟩
    (mem pc0 = 0x08 →
      (Core.run mem s0 2).rw = 0 ∧ (Core.run mem s0 2).dout = f0 ∧
      (Core.run mem s0 2).addr = cat8 sp0 1 ∧
      bit (Core.run mem s0 2).dout 4 = bit f0 4) ∧
    (mem pc0 = 0x00 →
      (Core.run mem s0 4).rw = 0 ∧ (Core.run mem s0 4).dout = (f0 ||| 0x30) ∧
      bit (Core.run mem s0 4).dout 4 = 1 ∧ bit (Core.run mem s0 4).dout 5 = 1) := by
  intro s0
  obtain ⟨hb4, hb5, hmod⟩ := lor48_bits f0 hf
  constructor
  · intro hm
    refine ⟨?_, ?_, ?_, ?_⟩ <;>
      simp [s0, Core.run, Core.step, Core.stepo, Core.fetch, Core.execute,
        Core.executeOp, Core.matched, Core.PUSH, Core.bump, Core.endInstr, hm,
        Nat.mod_eq_of_lt hf]
  · intro hm
    refine ⟨?_, ?_, ?_, ?_⟩ <;>
      simp [s0, Core.run, Core.step, Core.stepo, Core.fetch, Core.execute,
        Core.executeOp, Core.matched, Core.BRK, Core.bump, Core.endInstr, hm,
        hmod, hb4, hb5]

/-- C10 witness: the push theorem applied at a concrete state, flags
0xB5 (B bit clear). -/
theorem C10_witness :
    let mem : Nat → Nat := fun a => if a = 0x200 then 0x08 else 0
    let s0 : Core.State := ⟨0, 0, 0, 0xFF, 0x200, 0, 0, 0, 0xB5, 0x200, 0, 1, 0, 3⟩
    (mem 0x200 = 0x08 →
      (Core.run mem s0 2).rw = 0 ∧ (Core.run mem s0 2).dout = 0xB5 ∧
      (Core.run mem s0 2).addr = cat8 0xFF 1 ∧
      bit (Core.run mem s0 2).dout 4 = bit 0xB5 4) ∧
    (mem 0x200 = 0x00 →
      (Core.run mem s0 4).rw = 0 ∧ (Core.run mem s0 4).dout = (0xB5 ||| 0x30) ∧
      bit (Core.run mem s0 4).dout 4 = 1 ∧ bit (Core.run mem s0 4).dout 5 = 1) := by
  intro mem s0
  exact C10_php_brk_status mem 0 0 0 0xFF 0x200 0 0 0 0xB5 0 (by norm_num) (by norm_num)

/-- C8 counterexample: a concrete JSR (opcode 0x20 at 0x0200) does not
assert end-of-instruction on its 5th cycle (as a 5-cycle instruction
would); it ends on the 6th. -/
theorem C8_counterexample :
    Core.endFlagAt
      (fun a => if a = 0x200 then 0x20 else if a = 0x201 then 0x34 else
        if a = 0x202 then 0x12 else 0)
      ⟨0, 0, 0, 0xFF, 0x200, 0, 0, 0, 0x20, 0x200, 0, 1, 0, 3⟩ 4 = false ∧
    Core.endFlagAt
      (fun a => if a = 0x200 then 0x20 else if a = 0x201 then 0x34 else
        if a = 0x202 then 0x12 else 0)
      ⟨0, 0, 0, 0xFF, 0x200, 0, 0, 0, 0x20, 0x200, 0, 1, 0, 3⟩ 5 = true := by
  constructor <;> decide

/-- C8 (amended): counting from the opcode-fetch cycle through the
cycle asserting end-of-instruction, JSR takes 6 cycles, RTS takes 6,
JMP absolute takes 3 and JMP indirect takes 5, for every starting
state and memory. -/
theorem C8_jsr_rts_jmp_cycles (mem : Nat → Nat)
    (a0 x0 y0 sp0 pc0 t8 t16 i0 f0 d0 : Nat) :
    let s0 : Core.State := ⟨a0, x0, y0, sp0, pc0, t8, t16, i0, f0, pc0, d0, 1, 0, 3⟩
    (mem pc0 = 0x20 → Core.consumes mem s0 6) ∧
    (mem pc0 = 0x60 → Core.consumes mem s0 6) ∧
    (mem pc0 = 0x4C → Core.consumes mem s0 3) ∧
    (mem pc0 = 0x6C → Core.consumes mem s0 5) := by
  intro s0
  refine ⟨?_, ?_, ?_, ?_⟩ <;> intro hm <;> refine ⟨?_, fun k hk => ?_⟩
  all_goals try interval_cases k
  all_goals
    simp [s0, Core.endFlagAt, Core.run, Core.step, Core.stepo, Core.fetch,
      Core.execute, Core.executeOp, Core.matched, Core.JSR, Core.RTS, Core.JMP,
      Core.bump, Core.endInstr, hm]

/-- C8 witness: the cycle-count theorem applied at a concrete state. -/
theorem C8_witness :
    let mem : Nat → Nat := fun a => if a = 0x200 then 0x20 else if a = 0x201 then 0x34
      else if a = 0x202 then 0x12 else 0
    let s0 : Core.State := ⟨0, 0, 0, 0xFF, 0x200, 0, 0, 0, 0x20, 0x200, 0, 1, 0, 3⟩
    (mem 0x200 = 0x20 → Core.consumes mem s0 6) ∧
    (mem 0x200 = 0x60 → Core.consumes mem s0 6) ∧
    (mem 0x200 = 0x4C → Core.consumes mem s0 3) ∧
    (mem 0x200 = 0x6C → Core.consumes mem s0 5) := by
  intro mem s0
  exact C8_jsr_rts_jmp_cycles mem 0 0 0 0xFF 0x200 0 0 0 0x20 0

/-- C2: the bus trace of a concrete INC absolute (0xEE, operand
0x1234, memory value 0x41).  The cycle that should be the dummy write
of the unmodified value is driven with RW = read (cycle 4 shows
RW = 1 while Dout carries 0x41), so the whole instruction performs
exactly ONE write cycle (cycle 5, the modified value 0x42), not two —
and an indexed RMW opcode (0xF6) matches no ALU2 address-mode branch
at all and performs zero writes in 16 cycles. -/
theorem C2_rmw_write_trace :
    let s0 : Core.State := ⟨0, 0, 0, 0xFF, 0x200, 0, 0, 0, 0x20, 0x200, 0, 1, 0, 3⟩
    let mem : Nat → Nat := fun a => if a = 0x200 then 0xEE else if a = 0x201 then 0x34
      else if a = 0x202 then 0x12 else if a = 0x1234 then 0x41 else 0
    let memx : Nat → Nat := fun a => if a = 0x200 then 0xF6 else if a = 0x201 then 0x80 else 0
    Core.consumes mem s0 6 ∧
    Core.writesIn mem s0 6 = 1 ∧
    (Core.run mem s0 4).rw = 1 ∧ (Core.run mem s0 4).addr = 0x1234 ∧
    (Core.run mem s0 4).dout = 0x41 ∧
    (Core.run mem s0 5).rw = 0 ∧ (Core.run mem s0 5).addr = 0x1234 ∧
    (Core.run mem s0 5).dout = 0x42 ∧
    Core.writesIn memx s0 16 = 0 := by
  intro s0 mem memx
  refine ⟨⟨?_, ?_⟩, ?_, ?_, ?_, ?_, ?_, ?_, ?_, ?_⟩ <;> decide

/-- Every opcode of the form ---10000 dispatches to `Core.BR`: the
earlier cases of the `Switch` cannot match it. -/
theorem execute_br (s : Core.State) (din : Nat) (hbr : s.instr % 32 = 16) :
    Core.execute s din = Core.BR s din := by
  have h16 : (s.instr % 32 == 16) = true := by simp [hbr]
  have hm : Core.matched s.instr = true := by simp [Core.matched, h16]
  have e1 : (s.instr == 0x00) = false := by rw [beq_eq_false_iff_ne]; omega
  have e2 : (s.instr == 0x40) = false := by rw [beq_eq_false_iff_ne]; omega
  have e3 : (s.instr == 0xEA) = false := by rw [beq_eq_false_iff_ne]; omega
  have e4 : (s.instr % 32 == 24) = false := by rw [beq_eq_false_iff_ne]; omega
  have e5 : (s.instr == 0xB8) = false := by rw [beq_eq_false_iff_ne]; omega
  have e6 : (s.instr % 32 == 12) = false := by rw [beq_eq_false_iff_ne]; omega
  simp [Core.execute, Core.executeOp, hm, e1, e2, e3, e4, e5, e6, h16]

/-- C1 counterexample: a concrete untaken branch (BNE 0xD0 with Z = 1,
offset +5): end-of-instruction is not asserted on the 2nd cycle (as
the claimed 2-cycle count requires) but on the 4th. -/
theorem C1_counterexample :
    Core.endFlagAt
      (fun a => if a = 0x200 then 0xD0 else if a = 0x201 then 5 else 0)
      ⟨0, 0, 0, 0xFF, 0x200, 0, 0, 0, 0x22, 0x200, 0, 1, 0, 3⟩ 1 = false ∧
    Core.endFlagAt
      (fun a => if a = 0x200 then 0xD0 else if a = 0x201 then 5 else 0)
      ⟨0, 0, 0, 0xFF, 0x200, 0, 0, 0, 0x22, 0x200, 0, 1, 0, 3⟩ 3 = true := by
  constructor <;> decide

/-- C1 (amended): for every branch opcode (---10000), every offset
byte, every PC and every flag state, counting from the opcode-fetch
cycle through the cycle asserting end-of-instruction, the branch
consumes 4 cycles when not taken, 4 when taken without a page cross,
and 5 when taken with a page cross (carry out of the low byte of
PC+2 plus offset, XORed with the offset's sign bit). -/
theorem C1_branch_cycle_counts (mem : Nat → Nat)
    (a0 x0 y0 sp0 pc0 t8 t16 i0 f0 d0 op d : Nat)
    (hpc : pc0 < 65536) (hop : op < 256) (hbr : op % 32 = 16) (hd : d < 256)
    (hm0 : mem pc0 = op) (hm1 : mem ((pc0 + 1) % 65536) = d) :
    let s0 : Core.State := ⟨a0, x0, y0, sp0, pc0, t8, t16, i0, f0, pc0, d0, 1, 0, 3⟩
    (Core.branch_cond (op / 32 % 8) f0 = false → Core.consumes mem s0 4) ∧
    (Core.branch_cond (op / 32 % 8) f0 = true →
      (((pc0 + 2) % 256 + d) / 256 + bit d 7) % 2 = 0 → Core.consumes mem s0 4) ∧
    (Core.branch_cond (op / 32 % 8) f0 = true →
      (((pc0 + 2) % 256 + d) / 256 + bit d 7) % 2 = 1 → Core.consumes mem s0 5) := by
  intro s0
  have hop' : op % 256 = op := Nat.mod_eq_of_lt hop
  have hd' : d % 256 = d := Nat.mod_eq_of_lt hd
  have e21 : ((pc0 + 1) % 65536 + 1) % 65536 = (pc0 + 2) % 65536 := by omega
  have hmod : (pc0 + 2) % 65536 % 256 = (pc0 + 2) % 256 :=
    Nat.mod_mod_of_dvd _ (by norm_num)
  have hstep1 : Core.run mem s0 1 =
      ⟨a0, x0, y0, sp0, (pc0 + 1) % 65536, t8, t16, op, f0,
        (pc0 + 1) % 65536, d0, 1, 1, 3⟩ := by
    simp [s0, Core.run, Core.step, Core.stepo, Core.fetch, Core.bump, hm0, hop']
  have hstep2 : Core.run mem s0 2 =
      ⟨a0, x0, y0, sp0, (pc0 + 2) % 65536, d, t16, op, f0,
        (pc0 + 2) % 65536, d0, 1, 2, 3⟩ := by
    have hr : Core.run mem s0 2
        = Core.step (Core.run mem s0 1) (mem (Core.run mem s0 1).addr) := rfl
    rw [hr, hstep1]
    simp [Core.step, Core.stepo, execute_br, hbr, Core.BR, Core.bump, hm1, hd', e21]
  have hstep3 : Core.run mem s0 3 =
      ⟨a0, x0, y0, sp0, (pc0 + 2) % 65536, d,
        cat8 ((pc0 + 2) % 256 + d) ((pc0 + 2) % 65536 / 256), op, f0,
        (pc0 + 2) % 65536, d0, 1, 3, 3⟩ := by
    have hr : Core.run mem s0 3
        = Core.step (Core.run mem s0 2) (mem (Core.run mem s0 2).addr) := rfl
    rw [hr, hstep2]
    simp [Core.step, Core.stepo, execute_br, hbr, Core.BR, Core.bump, cat8, hd', hmod]
  have ef0 : Core.endFlagAt mem s0 0 = false := by
    simp [s0, Core.endFlagAt, Core.run, Core.stepo, Core.fetch]
  have ef1 : Core.endFlagAt mem s0 1 = false := by
    simp [Core.endFlagAt, hstep1, Core.stepo, execute_br, hbr, Core.BR]
  have ef2 : Core.endFlagAt mem s0 2 = false := by
    simp [Core.endFlagAt, hstep2, Core.stepo, execute_br, hbr, Core.BR]
  refine ⟨?_, ?_, ?_⟩
  · intro hcond
    refine ⟨?_, fun k hk => ?_⟩
    · simp [Core.endFlagAt, hstep3, Core.stepo, execute_br, hbr, Core.BR, hcond]
    · interval_cases k
      · exact ef0
      · exact ef1
      · exact ef2
  · intro hcond hcr
    refine ⟨?_, fun k hk => ?_⟩
    · simp [Core.endFlagAt, hstep3, Core.stepo, execute_br, hbr, Core.BR, hcond,
        Core.bump, Core.endInstr, hmod, hd', hcr]
    · interval_cases k
      · exact ef0
      · exact ef1
      · exact ef2
  · intro hcond hcr
    have ef3 : Core.endFlagAt mem s0 3 = false := by
      simp [Core.endFlagAt, hstep3, Core.stepo, execute_br, hbr, Core.BR, hcond,
        Core.bump, Core.endInstr, hmod, hd', hcr]
    have hstep4 : Core.run mem s0 4 =
        ⟨a0, x0, y0, sp0, (pc0 + 2) % 65536, d,
          setHi8 (cat8 ((pc0 + 2) % 256 + d) ((pc0 + 2) % 65536 / 256))
            (if bit d 7 = 1 then
              cat8 ((pc0 + 2) % 256 + d) ((pc0 + 2) % 65536 / 256) / 256 + 255
             else
              cat8 ((pc0 + 2) % 256 + d) ((pc0 + 2) % 65536 / 256) / 256 + 1),
          op, f0, (pc0 + 2) % 65536, d0, 1, 4, 3⟩ := by
      have hr : Core.run mem s0 4
          = Core.step (Core.run mem s0 3) (mem (Core.run mem s0 3).addr) := rfl
      rw [hr, hstep3]
      simp [Core.step, Core.stepo, execute_br, hbr, Core.BR, Core.bump, hmod, hd',
        hcond, hcr]
    refine ⟨?_, fun k hk => ?_⟩
    · simp [Core.endFlagAt, hstep4, Core.stepo, execute_br, hbr, Core.BR]
    · interval_cases k
      · exact ef0
      · exact ef1
      · exact ef2
      · exact ef3

/-- C1 witness: the amended cycle-count theorem at a concrete BNE. -/
theorem C1_witness :
    let mem : Nat → Nat := fun a => if a = 0x200 then 0xD0 else if a = 0x201 then 5 else 0
    let s0 : Core.State := ⟨0, 0, 0, 0xFF, 0x200, 0, 0, 0, 0x22, 0x200, 0, 1, 0, 3⟩
    (Core.branch_cond (0xD0 / 32 % 8) 0x22 = false → Core.consumes mem s0 4) ∧
    (Core.branch_cond (0xD0 / 32 % 8) 0x22 = true →
      (((0x200 + 2) % 256 + 5) / 256 + bit 5 7) % 2 = 0 → Core.consumes mem s0 4) ∧
    (Core.branch_cond (0xD0 / 32 % 8) 0x22 = true →
      (((0x200 + 2) % 256 + 5) / 256 + bit 5 7) % 2 = 1 → Core.consumes mem s0 5) := by
  intro mem s0
  exact C1_branch_cycle_counts mem 0 0 0 0xFF 0x200 0 0 0 0x22 0 0xD0 5
    (by norm_num) (by norm_num) (by norm_num) (by norm_num) rfl rfl

end M6502
